import Mathlib

/-!
# Verification of the ezunsub TypeScript SDK webhook subsystem

A shallow embedding of the SDK's webhook verifier
(`WebhookVerifier.verifySignature`, `WebhookVerifier.verifyAndParse`,
`WebhookVerifier.extractHeaders`) and of the REST client's response handler
(`EZUnsubClient.handleResponse`), together with theorems settling the
specification claims.

Modelling conventions:
* JavaScript numbers that can be `NaN` are modelled by `JSNum`
  (an integer or `NaN`); timestamps in this code are integral.
* JavaScript strings are sequences of code units; string builtins
  (`startsWith`, `slice`, `parseInt`) are modelled on `List Char`.
* External primitives (node's `createHmac(...).digest('hex')` and the
  JavaScript `JSON.parse`) are parameters of the embedded operations:
  every theorem is generic over them, so it holds in particular for the
  real primitives.
* Thrown JavaScript exceptions are modelled with `Except`: `JSError.err m`
  is a plain `Error` with message `m`, `JSError.typeError m` a `TypeError`.
-/

/-- A JavaScript number that is either an integer or `NaN`
(the only numbers arising in the webhook code). -/
inductive JSNum where
  | nan : JSNum
  | int : Int → JSNum
deriving DecidableEq, Repr

/-- Template-literal conversion of a `JSNum` to a string. -/
def jsNumToString : JSNum → String
  | .nan => "NaN"
  | .int n => toString n

/-- `Math.abs` on a `JSNum`. -/
def jsAbs : JSNum → JSNum
  | .nan => .nan
  | .int n => .int n.natAbs

/-- Subtraction `a - b` where `a` is an integer and `b` may be `NaN`. -/
def jsSubIntNum (a : Int) : JSNum → JSNum
  | .nan => .nan
  | .int n => .int (a - n)

/-- The comparison `x > bound` on a possibly-`NaN` left operand:
any comparison with `NaN` is `false` in JavaScript. -/
def jsGt : JSNum → Int → Bool
  | .nan, _ => false
  | .int a, b => a > b

/-- Characters treated as whitespace by the ECMAScript `parseInt` prefix trim. -/
def jsWhitespace (c : Char) : Bool :=
  c = ' ' || c = '\t' || c = '\n' || c = '\r' ||
  c.toNat = 11 || c.toNat = 12 || c.toNat = 0xA0 || c.toNat = 0xFEFF ||
  c.toNat = 0x2028 || c.toNat = 0x2029

/-- Numeric value of a list of decimal digit characters. -/
def digitsVal (ds : List Char) : Nat :=
  ds.foldl (fun a c => a * 10 + (c.toNat - 48)) 0

/-- Value of a signed digit prefix; `NaN` when there is no digit. -/
def parseIntDigits (sign : Int) (cs : List Char) : JSNum :=
  let ds := cs.takeWhile Char.isDigit
  if ds.isEmpty then .nan else .int (sign * digitsVal ds)

/-- The ECMAScript `parseInt(s, 10)`: skip leading whitespace, read an
optional sign, then the longest decimal-digit prefix; `NaN` when no digit
follows. -/
def jsParseInt (s : String) : JSNum :=
  match s.data.dropWhile jsWhitespace with
  | '-' :: rest => parseIntDigits (-1) rest
  | '+' :: rest => parseIntDigits 1 rest
  | cs => parseIntDigits 1 cs

/-- JavaScript `s.startsWith(pre)` on code-unit sequences. -/
def jsStartsWith (s pre : String) : Bool :=
  pre.data.isPrefixOf s.data

/-- JavaScript `s.slice(n)` (from index `n` to the end). -/
def jsSlice (s : String) (n : Nat) : String :=
  String.mk (s.data.drop n)

/-- Byte length of the UTF-8 encoding of a string
(the length of node's `Buffer.from(s)`). -/
def utf8Len (s : String) : Nat :=
  (s.data.map Char.utf8Size).sum

/-- Node's `crypto.timingSafeEqual(Buffer.from(a), Buffer.from(b))`:
throws (`.error`) when the buffers have different byte lengths, otherwise
returns whether the byte sequences are equal.  Byte-sequence equality of
UTF-8 encodings coincides with string equality. -/
def nodeTimingSafeEqual (a b : String) : Except Unit Bool :=
  if utf8Len a = utf8Len b then .ok (a == b) else .error ()

/-- Lowercase hexadecimal digit. -/
def isLowerHexChar (c : Char) : Bool :=
  c.isDigit || (97 ≤ c.toNat && c.toNat ≤ 102)

/-- String made of lowercase hexadecimal digits. -/
def isLowerHexString (s : String) : Bool :=
  s.data.all isLowerHexChar

/-- A 64-character lowercase-hex string: the shape of every
`createHmac('sha256', _).digest('hex')` output. -/
def isHexDigest64 (s : String) : Bool :=
  s.length = 64 && isLowerHexString s

/-- The verifier's immutable configuration (`secret`, `maxAgeSeconds`),
from the `WebhookVerifier` constructor. -/
structure WebhookVerifier where
  secret : String
  maxAgeSeconds : Int
deriving DecidableEq

/-- `signature.startsWith('sha256=') ? signature.slice(7) : signature`:
the supplied signature with an optional `sha256=` prefix removed. -/
def sigValueOf (signature : String) : String :=
  if jsStartsWith signature "sha256=" then jsSlice signature 7 else signature

/-- `WebhookVerifier.verifySignature(signature, timestamp, body)`.
`hmac key msg` models `createHmac('sha256', key).update(msg).digest('hex')`;
`now` models `Math.floor(Date.now() / 1000)`.  The `try/catch` around
`timingSafeEqual` maps its `.error` outcome to `false`. -/
def WebhookVerifier.verifySignature (v : WebhookVerifier)
    (hmac : String → String → String) (now : Int)
    (signature : String) (timestamp : JSNum) (body : String) : Bool :=
  if jsGt (jsAbs (jsSubIntNum now timestamp)) v.maxAgeSeconds then
    false
  else
    let message := jsNumToString timestamp ++ "." ++ body
    let expected := hmac v.secret message
    let sigValue := sigValueOf signature
    match nodeTimingSafeEqual expected sigValue with
    | .ok b => b
    | .error _ => false

/-- A JSON value as produced by `JSON.parse` (numeric values are modelled
at integer precision; no claim involves fractional numbers). -/
inductive JSValue where
  | null : JSValue
  | bool : Bool → JSValue
  | num : Int → JSValue
  | str : String → JSValue
  | arr : List JSValue → JSValue
  | obj : List (String × JSValue) → JSValue

/-- A thrown JavaScript exception: a plain `Error` or a `TypeError`. -/
inductive JSError where
  | err : String → JSError
  | typeError : String → JSError
deriving DecidableEq

/-- Field lookup inside a parsed JSON object (first entry with the key). -/
def jsObjField (fields : List (String × JSValue)) (k : String) : Option JSValue :=
  (fields.find? (fun kv => kv.1 == k)).map (fun kv => kv.2)

/-- The property access `data.k` on a parsed JSON value: accessing a
property of `null` throws a `TypeError`; objects look the key up
(`none` models the result `undefined`); every other value has no such
own property, giving `undefined`. -/
def jsProp (data : JSValue) (k : String) : Except JSError (Option JSValue) :=
  match data with
  | .null =>
    .error (.typeError ("Cannot read properties of null (reading \x27" ++ k ++ "\x27)"))
  | .obj fields => .ok (jsObjField fields k)
  | _ => .ok none

/-- JavaScript truthiness of a property-access result
(`none` is `undefined`). -/
def truthy : Option JSValue → Bool
  | none => false
  | some .null => false
  | some (.bool b) => b
  | some (.num n) => n != 0
  | some (.str s) => s != ""
  | some (.arr _) => true
  | some (.obj _) => true

/-- The `timestamp` option of `verifyAndParse`: `string | number`. -/
inductive TimestampInput where
  | str : String → TimestampInput
  | num : JSNum → TimestampInput

/-- Lines 91–93 of the verifier: a string timestamp goes through
`parseInt(_, 10)`, a numeric one is used as is. -/
def normalizeTimestamp : TimestampInput → JSNum
  | .str s => jsParseInt s
  | .num n => n

/-- The options record taken by `verifyAndParse`. -/
structure VerifyAndParseOptions where
  signature : String
  timestamp : TimestampInput
  body : String
  deliveryId : Option String

/-- The `WebhookPayload` record returned by `verifyAndParse`; the three
copied fields hold the raw property-access results (`none` would be
`undefined`, though the validation guarantees they are present). -/
structure WebhookPayload where
  event : Option JSValue
  timestamp : Option JSValue
  data : Option JSValue
  deliveryId : String

/-- `WebhookVerifier.verifyAndParse(options)`.
`jsonParse` models `JSON.parse` (`.error m` is a thrown `SyntaxError`
with message `m`). -/
def WebhookVerifier.verifyAndParse (v : WebhookVerifier)
    (hmac : String → String → String)
    (jsonParse : String → Except String JSValue) (now : Int)
    (options : VerifyAndParseOptions) : Except JSError WebhookPayload :=
  let ts := normalizeTimestamp options.timestamp
  if !(v.verifySignature hmac now options.signature ts options.body) then
    .error (.err "Invalid webhook signature")
  else
    match jsonParse options.body with
    | .error m => .error (.err ("Invalid JSON payload: " ++ m))
    | .ok data =>
      match jsProp data "event" with
      | .error e => .error e
      | .ok ev =>
        if !(truthy ev) then
          .error (.err "Missing \x27event\x27 field in payload")
        else
          match jsProp data "timestamp" with
          | .error e => .error e
          | .ok tsField =>
            if !(truthy tsField) then
              .error (.err "Missing \x27timestamp\x27 field in payload")
            else
              match jsProp data "data" with
              | .error e => .error e
              | .ok dataField =>
                if !(truthy dataField) then
                  .error (.err "Missing \x27data\x27 field in payload")
                else
                  .ok { event := ev, timestamp := tsField, data := dataField,
                        deliveryId := options.deliveryId.getD "" }

/-- The two accepted header carriers: a `Headers` collection or a plain
name-to-value record, each as an ordered list of entries. -/
inductive HeaderCarrier where
  | headersObj : List (String × String) → HeaderCarrier
  | record : List (String × String) → HeaderCarrier

/-- JavaScript `s.toLowerCase()`, modelled per code unit (all header
names compared by this code are ASCII). -/
def jsToLower (s : String) : String :=
  String.mk (s.data.map Char.toLower)

/-- `Headers.get(key)`: case-insensitive lookup per the fetch standard. -/
def headersGet (entries : List (String × String)) (key : String) : Option String :=
  (entries.find? (fun kv => jsToLower kv.1 == jsToLower key)).map (fun kv => kv.2)

/-- The manual scan of `Object.entries(headers)` comparing lowercased
names, returning the first match. -/
def recordGet (entries : List (String × String)) (key : String) : Option String :=
  let lowerKey := jsToLower key
  (entries.find? (fun kv => jsToLower kv.1 == lowerKey)).map (fun kv => kv.2)

/-- The local `get` helper of `extractHeaders` (`none` models `null`). -/
def carrierGet (headers : HeaderCarrier) (key : String) : Option String :=
  match headers with
  | .headersObj entries => headersGet entries key
  | .record entries => recordGet entries key

/-- Truthiness of a `string | null` value: `null` and `''` are falsy. -/
def truthyStr : Option String → Bool
  | none => false
  | some s => s != ""

/-- The record returned by `extractHeaders`. -/
structure ExtractedHeaders where
  signature : String
  timestamp : String
  event : String
  deliveryId : String
deriving DecidableEq

/-- `WebhookVerifier.extractHeaders(headers)` (static). -/
def extractHeaders (headers : HeaderCarrier) : Except JSError ExtractedHeaders :=
  let signature := carrierGet headers "x-webhook-signature"
  let timestamp := carrierGet headers "x-webhook-timestamp"
  let event := carrierGet headers "x-webhook-event"
  let deliveryId := carrierGet headers "x-webhook-delivery-id"
  if !(truthyStr signature) then
    .error (.err "Missing X-Webhook-Signature header")
  else if !(truthyStr timestamp) then
    .error (.err "Missing X-Webhook-Timestamp header")
  else
    .ok { signature := signature.getD "", timestamp := timestamp.getD "",
          event := event.getD "", deliveryId := deliveryId.getD "" }

/-- Two header-entry lists that agree up to the casing of their names
(same order, names equal after lowercasing, values equal). -/
def keyCaseEquiv (l₁ l₂ : List (String × String)) : Prop :=
  List.Forall₂ (fun a b => jsToLower a.1 = jsToLower b.1 ∧ a.2 = b.2) l₁ l₂

mutual

/-- JavaScript `String(v)` coercion of a JSON value, as applied by the
`Error` constructor to its message argument. -/
def jsToString : JSValue → String
  | .null => "null"
  | .bool b => cond b "true" "false"
  | .num n => toString n
  | .str s => s
  | .arr xs => jsArrToString xs
  | .obj _ => "[object Object]"

/-- `Array.prototype.toString`: elements joined by commas, `null`
elements rendered empty. -/
def jsArrToString : List JSValue → String
  | [] => ""
  | [x] =>
    match x with
    | .null => ""
    | v => jsToString v
  | x :: xs =>
    (match x with
     | .null => ""
     | v => jsToString v) ++ "," ++ jsArrToString xs

end

/-- The errors of `src/errors.ts`, one constructor per class, plus a
constructor for exceptions thrown by builtins (e.g. `JSON.parse`).
`EZUnsubError` carries its optional `statusCode`; `RateLimitError` its
optional `retryAfter`; the other classes have fixed status codes. -/
inductive EZError where
  | ezUnsubError : String → Option Nat → EZError
  | authenticationError : String → EZError
  | validationError : String → EZError
  | notFoundError : String → EZError
  | rateLimitError : String → Option JSNum → EZError
  | forbiddenError : String → EZError
  | jsException : String → EZError
deriving DecidableEq

/-- The parts of a fetch `Response` read by `handleResponse`:
its status, `response.headers.get('Retry-After')`, and the text of the
body (`await response.text()`, read at most once per response). -/
structure HttpResponse where
  status : Nat
  retryAfterHeader : Option String
  bodyText : String

/-- `EZUnsubClient.parseJson(response)`: the body text parsed as JSON,
`null` (`none`) when the text is empty or parsing throws. -/
def clientParseJson (jsonParse : String → Except String JSValue)
    (r : HttpResponse) : Option JSValue :=
  if r.bodyText ≠ "" then
    match jsonParse r.bodyText with
    | .ok v => some v
    | .error _ => none
  else none

/-- The expression `data?.error ?? default` coerced to the error-message
string: `default` when `data` is `null`, has no `error` property, or that
property is `null`. -/
def errMsgFrom (data : Option JSValue) (dflt : String) : String :=
  match data with
  | none => dflt
  | some .null => dflt
  | some (.obj fields) =>
    match jsObjField fields "error" with
    | none => dflt
    | some .null => dflt
    | some v => jsToString v
  | some _ => dflt

/-- `EZUnsubClient.handleResponse(response)`: ordered status dispatch,
then the empty-result cases, then `JSON.parse` of the body (whose
`SyntaxError`, if any, propagates as a thrown exception). -/
def handleResponse (jsonParse : String → Except String JSValue)
    (r : HttpResponse) : Except EZError JSValue :=
  if r.status = 401 then
    .error (.authenticationError "Authentication required")
  else if r.status = 403 then
    .error (.forbiddenError (errMsgFrom (clientParseJson jsonParse r) "Access denied"))
  else if r.status = 404 then
    .error (.notFoundError (errMsgFrom (clientParseJson jsonParse r) "Resource not found"))
  else if r.status = 429 then
    .error (.rateLimitError "Rate limit exceeded"
      (match r.retryAfterHeader with
       | some s => if s ≠ "" then some (jsParseInt s) else none
       | none => none))
  else if r.status = 400 then
    .error (.validationError (errMsgFrom (clientParseJson jsonParse r) "Invalid request"))
  else if r.status ≥ 400 then
    .error (.ezUnsubError
      (errMsgFrom (clientParseJson jsonParse r)
        ("Request failed with status " ++ toString r.status))
      (some r.status))
  else if r.status = 204 then
    .ok (.obj [])
  else if r.bodyText = "" then
    .ok (.obj [])
  else
    match jsonParse r.bodyText with
    | .ok v => .ok v
    | .error m => .error (.jsException m)

/-! ## Error kinds of the §7 taxonomy, as realised by the webhook code -/

/-- Authentication-kind failure: the fixed message thrown when signature
verification fails. -/
def isAuthenticationKind : JSError → Bool
  | .err m => m == "Invalid webhook signature"
  | .typeError _ => false

/-- Parse-kind failure: a plain error embedding the JSON parser's
diagnostic behind the fixed prefix. -/
def isParseKind : JSError → Bool
  | .err m => jsStartsWith m "Invalid JSON payload: "
  | .typeError _ => false

/-- Missing-Field-kind failure: one of the three field-validation
messages. -/
def isMissingFieldKind : JSError → Bool
  | .err m =>
    m == "Missing \x27event\x27 field in payload" ||
    m == "Missing \x27timestamp\x27 field in payload" ||
    m == "Missing \x27data\x27 field in payload"
  | .typeError _ => false

/-! ## Concrete instances of the external primitives, for evaluation -/

/-- A concrete stand-in for the HMAC primitive: a constant 64-character
lowercase-hex digest (the shape of every real `sha256` hex digest). -/
def hmacW : String → String → String :=
  fun _ _ => "0123456789abcdef0123456789abcdef0123456789abcdef0123456789abcdef"

/-- A concrete stand-in for `JSON.parse`, defined on the bodies used in
concrete evaluations. -/
def jsonParseW : String → Except String JSValue :=
  fun s =>
    if s = "null" then .ok .null
    else if s = "BODY" then
      .ok (.obj [("event", .str "contact.created"),
                 ("timestamp", .str "2023-11-14T22:13:20Z"),
                 ("data", .obj [("contactId", .str "c1")])])
    else if s = "NOEVENT" then
      .ok (.obj [("timestamp", .str "2023-11-14T22:13:20Z"),
                 ("data", .obj [])])
    else .error "Unexpected end of JSON input"

/-! ## Helper lemmas -/

theorem char_utf8Size_of_ascii (c : Char) (h : c.toNat < 128) : c.utf8Size = 1 := by
  have hle : c.val ≤ UInt32.ofNatCore 0x7F (by decide) := by
    rw [UInt32.le_def, BitVec.le_def]
    exact Nat.le_of_lt_succ h
  unfold Char.utf8Size
  rw [if_pos hle]

theorem isLowerHexChar_ascii (c : Char) (h : isLowerHexChar c = true) :
    c.toNat < 128 := by
  unfold isLowerHexChar at h
  rw [Bool.or_eq_true, Bool.and_eq_true] at h
  rcases h with h | ⟨_, h2⟩
  · unfold Char.isDigit at h
    rw [Bool.and_eq_true, decide_eq_true_eq, decide_eq_true_eq] at h
    have : c.val ≤ Char.val (Char.ofNat 57) := h.2
    have h57 : c.val.toNat ≤ 57 := by
      rw [UInt32.le_def, BitVec.le_def] at this
      exact this
    exact Nat.lt_of_le_of_lt h57 (by omega)
  · rw [decide_eq_true_eq] at h2
    omega

theorem utf8Len_eq_length_of_ascii (l : List Char) (h : ∀ c ∈ l, c.toNat < 128) :
    (l.map Char.utf8Size).sum = l.length := by
  induction l with
  | nil => rfl
  | cons c cs ih =>
    simp only [List.map_cons, List.sum_cons, List.length_cons]
    rw [char_utf8Size_of_ascii c (h c (List.mem_cons_self c cs)),
      ih (fun d hd => h d (List.mem_cons_of_mem c hd))]
    omega

theorem utf8Len_of_hex (s : String) (h : isLowerHexString s = true) :
    utf8Len s = s.data.length := by
  unfold isLowerHexString at h
  rw [List.all_eq_true] at h
  exact utf8Len_eq_length_of_ascii s.data
    (fun c hc => isLowerHexChar_ascii c (h c hc))

theorem hex_startsWith_sha256_eq_false (s : String) (h : isLowerHexString s = true) :
    jsStartsWith s "sha256=" = false := by
  unfold jsStartsWith
  cases hb : "sha256=".data.isPrefixOf s.data with
  | false => rfl
  | true =>
    exfalso
    have hpre : "sha256=".data <+: s.data := List.isPrefixOf_iff_prefix.mp hb
    have hmem : 's' ∈ s.data := hpre.subset (by decide)
    unfold isLowerHexString at h
    rw [List.all_eq_true] at h
    have := h 's' hmem
    simp [isLowerHexChar, Char.isDigit] at this

theorem sigValueOf_of_hex (s : String) (h : isLowerHexString s = true) :
    sigValueOf s = s := by
  unfold sigValueOf
  rw [hex_startsWith_sha256_eq_false s h]
  rfl

theorem nodeTimingSafeEqual_self (s : String) :
    nodeTimingSafeEqual s s = .ok true := by
  simp [nodeTimingSafeEqual]

theorem replay_check_within (v : WebhookVerifier) (now T : Int)
    (hwin : |now - T| ≤ v.maxAgeSeconds) :
    jsGt (jsAbs (jsSubIntNum now (JSNum.int T))) v.maxAgeSeconds = false := by
  simp only [jsSubIntNum, jsAbs, jsGt]
  rw [decide_eq_false_iff_not]
  rw [Int.abs_eq_natAbs] at hwin
  omega

theorem verifySignature_of_correct_digest
    (v : WebhookVerifier) (hmac : String → String → String)
    (now T : Int) (body : String)
    (hwin : |now - T| ≤ v.maxAgeSeconds)
    (hhex : isLowerHexString
      (hmac v.secret (jsNumToString (JSNum.int T) ++ "." ++ body)) = true) :
    v.verifySignature hmac now
      (hmac v.secret (jsNumToString (JSNum.int T) ++ "." ++ body))
      (JSNum.int T) body = true := by
  unfold WebhookVerifier.verifySignature
  rw [replay_check_within v now T hwin]
  simp only [Bool.false_eq_true, if_false]
  rw [sigValueOf_of_hex _ hhex, nodeTimingSafeEqual_self]

theorem replay_check_beyond (v : WebhookVerifier)
    (hmac : String → String → String) (now T : Int) (sig body : String)
    (hout : |now - T| > v.maxAgeSeconds) :
    v.verifySignature hmac now sig (JSNum.int T) body = false := by
  unfold WebhookVerifier.verifySignature
  have hgt : jsGt (jsAbs (jsSubIntNum now (JSNum.int T))) v.maxAgeSeconds = true := by
    simp only [jsSubIntNum, jsAbs, jsGt]
    rw [decide_eq_true_eq]
    rw [Int.abs_eq_natAbs] at hout
    omega
  rw [hgt]
  simp

theorem findCI_congr {l₁ l₂ : List (String × String)} (h : keyCaseEquiv l₁ l₂)
    (k : String) :
    (l₁.find? (fun kv => jsToLower kv.1 == k)).map (fun kv => kv.2)
      = (l₂.find? (fun kv => jsToLower kv.1 == k)).map (fun kv => kv.2) := by
  induction h with
  | nil => rfl
  | cons hab htail ih =>
    rename_i a b t₁ t₂
    obtain ⟨hk, hv⟩ := hab
    rw [List.find?_cons, List.find?_cons, hk]
    cases hpb : (jsToLower b.1 == k) with
    | true => simp [hv]
    | false => simpa using ih

theorem headersGet_eq_recordGet (entries : List (String × String)) (key : String) :
    headersGet entries key = recordGet entries key := rfl

theorem recordGet_congr {l₁ l₂ : List (String × String)} (h : keyCaseEquiv l₁ l₂)
    (key : String) : recordGet l₁ key = recordGet l₂ key :=
  findCI_congr h (jsToLower key)

theorem extractHeaders_congr {c₁ c₂ : HeaderCarrier}
    (h : ∀ k, carrierGet c₁ k = carrierGet c₂ k) :
    extractHeaders c₁ = extractHeaders c₂ := by
  unfold extractHeaders
  rw [h "x-webhook-signature", h "x-webhook-timestamp", h "x-webhook-event",
    h "x-webhook-delivery-id"]

theorem recordGet_eq_none_of_absent (l : List (String × String)) (key : String)
    (h : ∀ p ∈ l, jsToLower p.1 ≠ jsToLower key) :
    recordGet l key = none := by
  unfold recordGet
  have hf : l.find? (fun kv => jsToLower kv.1 == jsToLower key) = none :=
    List.find?_eq_none.mpr (fun x hx h' => h x hx (eq_of_beq h'))
  simp [hf]

theorem carrierGet_reduce (l : List (String × String)) (c : HeaderCarrier)
    (hc : c = .headersObj l ∨ c = .record l) (key : String) :
    carrierGet c key = recordGet l key := by
  rcases hc with rfl | rfl
  · rfl
  · rfl

theorem parse_msg_ne_auth_msg (m : String) :
    ("Invalid JSON payload: " ++ m) ≠ "Invalid webhook signature" := by
  intro heq
  have hdata := congrArg String.data heq
  rw [String.data_append] at hdata
  have h22 := congrArg (List.take 22) hdata
  rw [List.take_left' (by decide)] at h22
  exact absurd h22 (by decide)

/-! ## Claim theorems -/

/-- Claim C2: for every secret, body and integer timestamp inside the
replay window, supplying exactly the (lowercase-hex) HMAC digest of the
message `"{T}.{B}"` makes `verifySignature` return `true`.  Generic over
the HMAC primitive; the hex-digest hypothesis states the shape every real
`digest('hex')` output has. -/
theorem verifySignature_accepts_valid
    (v : WebhookVerifier) (hmac : String → String → String)
    (now T : Int) (body : String)
    (hwin : |now - T| ≤ v.maxAgeSeconds)
    (hhex : isLowerHexString
      (hmac v.secret (jsNumToString (JSNum.int T) ++ "." ++ body)) = true) :
    v.verifySignature hmac now
      (hmac v.secret (jsNumToString (JSNum.int T) ++ "." ++ body))
      (JSNum.int T) body = true :=
  verifySignature_of_correct_digest v hmac now T body hwin hhex

/-- Witness for claim C2 at concrete inputs. -/
theorem verifySignature_accepts_valid_witness :
    WebhookVerifier.verifySignature ⟨"whsec_test", 300⟩ hmacW 1700000000
      (hmacW "whsec_test" (jsNumToString (JSNum.int 1700000000) ++ "." ++ "[1]"))
      (JSNum.int 1700000000) "[1]" = true :=
  verifySignature_accepts_valid ⟨"whsec_test", 300⟩ hmacW 1700000000 1700000000 "[1]"
    (by decide) (by decide)

/-- Claim C3: the replay window is symmetric and inclusive — a difference
of exactly `maxAgeSeconds` passes the check (a correct digest then yields
`true`), while a difference of `maxAgeSeconds + 1`, past or future, makes
`verifySignature` return `false` regardless of the supplied signature. -/
theorem verifySignature_window_boundary
    (v : WebhookVerifier) (hmac : String → String → String)
    (now T : Int) (sig body : String)
    (hhex : isLowerHexString
      (hmac v.secret (jsNumToString (JSNum.int T) ++ "." ++ body)) = true) :
    (|now - T| = v.maxAgeSeconds →
      v.verifySignature hmac now
        (hmac v.secret (jsNumToString (JSNum.int T) ++ "." ++ body))
        (JSNum.int T) body = true)
    ∧ (|now - T| = v.maxAgeSeconds + 1 →
      v.verifySignature hmac now sig (JSNum.int T) body = false) := by
  constructor
  · intro h
    exact verifySignature_of_correct_digest v hmac now T body (le_of_eq h) hhex
  · intro h
    exact replay_check_beyond v hmac now T sig body (by omega)

/-- Witness for claim C3: a timestamp exactly `maxAgeSeconds` in the past
is accepted; timestamps `maxAgeSeconds + 1` in the past and in the future
are rejected. -/
theorem verifySignature_window_boundary_witness :
    (WebhookVerifier.verifySignature ⟨"whsec_test", 300⟩ hmacW 1700000300
      (hmacW "whsec_test" (jsNumToString (JSNum.int 1700000000) ++ "." ++ "[1]"))
      (JSNum.int 1700000000) "[1]" = true)
    ∧ (WebhookVerifier.verifySignature ⟨"whsec_test", 300⟩ hmacW 1700000301
        (hmacW "whsec_test" (jsNumToString (JSNum.int 1700000000) ++ "." ++ "[1]"))
        (JSNum.int 1700000000) "[1]" = false)
    ∧ (WebhookVerifier.verifySignature ⟨"whsec_test", 300⟩ hmacW 1699999699
        (hmacW "whsec_test" (jsNumToString (JSNum.int 1700000000) ++ "." ++ "[1]"))
        (JSNum.int 1700000000) "[1]" = false) :=
  ⟨(verifySignature_window_boundary ⟨"whsec_test", 300⟩ hmacW 1700000300 1700000000
      (hmacW "whsec_test" (jsNumToString (JSNum.int 1700000000) ++ "." ++ "[1]")) "[1]"
      (by decide)).1 (by decide),
   (verifySignature_window_boundary ⟨"whsec_test", 300⟩ hmacW 1700000301 1700000000
      (hmacW "whsec_test" (jsNumToString (JSNum.int 1700000000) ++ "." ++ "[1]")) "[1]"
      (by decide)).2 (by decide),
   (verifySignature_window_boundary ⟨"whsec_test", 300⟩ hmacW 1699999699 1700000000
      (hmacW "whsec_test" (jsNumToString (JSNum.int 1700000000) ++ "." ++ "[1]")) "[1]"
      (by decide)).2 (by decide)⟩

/-- Claim C4: `verifySignature` never raises — in particular, a supplied
signature whose (prefix-stripped) byte length differs from the 64 bytes of
the computed hex digest makes the underlying `timingSafeEqual` throw, and
the surrounding catch turns that into the return value `false`. -/
theorem verifySignature_length_mismatch_returns_false
    (v : WebhookVerifier) (hmac : String → String → String) (now : Int)
    (sig : String) (ts : JSNum) (body : String)
    (hdig : isHexDigest64 (hmac v.secret (jsNumToString ts ++ "." ++ body)) = true)
    (hlen : utf8Len (sigValueOf sig) ≠ 64) :
    nodeTimingSafeEqual (hmac v.secret (jsNumToString ts ++ "." ++ body))
      (sigValueOf sig) = .error ()
    ∧ v.verifySignature hmac now sig ts body = false := by
  unfold isHexDigest64 at hdig
  rw [Bool.and_eq_true, decide_eq_true_eq] at hdig
  obtain ⟨hl, hhex⟩ := hdig
  have hexp : utf8Len (hmac v.secret (jsNumToString ts ++ "." ++ body)) = 64 := by
    rw [utf8Len_of_hex _ hhex]
    exact hl
  have herr : nodeTimingSafeEqual (hmac v.secret (jsNumToString ts ++ "." ++ body))
      (sigValueOf sig) = .error () := by
    unfold nodeTimingSafeEqual
    rw [if_neg]
    intro heq
    exact hlen (by rw [← heq, hexp])
  refine ⟨herr, ?_⟩
  unfold WebhookVerifier.verifySignature
  cases hgt : jsGt (jsAbs (jsSubIntNum now ts)) v.maxAgeSeconds with
  | true => simp
  | false => simp [herr]

/-- Witness for claim C4: a three-byte supplied signature against the
64-byte digest. -/
theorem verifySignature_length_mismatch_returns_false_witness :
    nodeTimingSafeEqual (hmacW "k" (jsNumToString (JSNum.int 0) ++ "." ++ "b"))
      (sigValueOf "abc") = .error ()
    ∧ WebhookVerifier.verifySignature ⟨"k", 300⟩ hmacW 0 "abc" (JSNum.int 0) "b" = false :=
  verifySignature_length_mismatch_returns_false ⟨"k", 300⟩ hmacW 0 "abc" (JSNum.int 0) "b"
    (by decide) (by decide)

/-- Claim C1: `verifyAndParse` returns a payload only when
`verifySignature` accepted the supplied signature, normalized timestamp
and body; whenever `verifySignature` rejects, it fails with the
Authentication-kind error "Invalid webhook signature" — uniformly in the
JSON parser, so no parsing of the body occurs on that path. -/
theorem verifyAndParse_requires_valid_signature
    (v : WebhookVerifier) (hmac : String → String → String) (now : Int)
    (o : VerifyAndParseOptions) :
    (v.verifySignature hmac now o.signature (normalizeTimestamp o.timestamp) o.body = false →
      ∀ jsonParse : String → Except String JSValue,
        v.verifyAndParse hmac jsonParse now o = .error (.err "Invalid webhook signature")
        ∧ isAuthenticationKind (.err "Invalid webhook signature") = true)
    ∧ (∀ (jsonParse : String → Except String JSValue) (payload : WebhookPayload),
        v.verifyAndParse hmac jsonParse now o = .ok payload →
        v.verifySignature hmac now o.signature (normalizeTimestamp o.timestamp) o.body
          = true) := by
  constructor
  · intro hf jsonParse
    refine ⟨?_, by decide⟩
    unfold WebhookVerifier.verifyAndParse
    simp [hf]
  · intro jsonParse payload hok
    cases hs : v.verifySignature hmac now o.signature (normalizeTimestamp o.timestamp)
        o.body with
    | true => rfl
    | false =>
      exfalso
      unfold WebhookVerifier.verifyAndParse at hok
      simp [hs] at hok

/-- Witness for claim C1: a delivery whose signature fails verification is
rejected with the fixed authentication message. -/
theorem verifyAndParse_requires_valid_signature_witness :
    WebhookVerifier.verifyAndParse ⟨"k", 300⟩ hmacW jsonParseW 0
      ⟨"wrong", .num (JSNum.int 0), "BODY", none⟩
      = .error (.err "Invalid webhook signature")
    ∧ isAuthenticationKind (.err "Invalid webhook signature") = true :=
  (verifyAndParse_requires_valid_signature ⟨"k", 300⟩ hmacW 0
      ⟨"wrong", .num (JSNum.int 0), "BODY", none⟩).1 (by decide) jsonParseW

/-- Claim C5: a body that the JSON parser rejects, carried by a delivery
whose signature verifies, fails with the Parse-kind error embedding the
parser's diagnostic — not with an Authentication-kind failure. -/
theorem verifyAndParse_parse_error_kind
    (v : WebhookVerifier) (hmac : String → String → String)
    (jsonParse : String → Except String JSValue) (now : Int)
    (o : VerifyAndParseOptions) (m : String)
    (hsig : v.verifySignature hmac now o.signature (normalizeTimestamp o.timestamp)
      o.body = true)
    (hparse : jsonParse o.body = .error m) :
    v.verifyAndParse hmac jsonParse now o
      = .error (.err ("Invalid JSON payload: " ++ m))
    ∧ isParseKind (.err ("Invalid JSON payload: " ++ m)) = true
    ∧ isAuthenticationKind (.err ("Invalid JSON payload: " ++ m)) = false := by
  refine ⟨?_, ?_, ?_⟩
  · unfold WebhookVerifier.verifyAndParse
    simp [hsig, hparse]
  · simp [isParseKind, jsStartsWith, String.data_append, List.isPrefixOf_iff_prefix]
  · unfold isAuthenticationKind
    exact beq_eq_false_iff_ne.mpr (parse_msg_ne_auth_msg m)

/-- Witness for claim C5: a correctly signed, syntactically invalid body. -/
theorem verifyAndParse_parse_error_kind_witness :
    WebhookVerifier.verifyAndParse ⟨"k", 300⟩ hmacW jsonParseW 0
      ⟨"0123456789abcdef0123456789abcdef0123456789abcdef0123456789abcdef",
        .num (JSNum.int 0), "oops", none⟩
      = .error (.err ("Invalid JSON payload: " ++ "Unexpected end of JSON input"))
    ∧ isParseKind (.err ("Invalid JSON payload: " ++ "Unexpected end of JSON input")) = true
    ∧ isAuthenticationKind
        (.err ("Invalid JSON payload: " ++ "Unexpected end of JSON input")) = false :=
  verifyAndParse_parse_error_kind ⟨"k", 300⟩ hmacW jsonParseW 0
    ⟨"0123456789abcdef0123456789abcdef0123456789abcdef0123456789abcdef",
      .num (JSNum.int 0), "oops", none⟩
    "Unexpected end of JSON input" (by decide) (by rfl)

/-- Claim C6: a validly signed body parsing to a JSON object whose
`event`, `timestamp` or `data` field is absent or empty (falsy) fails
with the Missing-Field-kind error naming exactly that field, the first
falsy field in validation order; the three errors are pairwise distinct
and each is recognised by the Missing-Field kind. -/
theorem verifyAndParse_missing_field_errors
    (v : WebhookVerifier) (hmac : String → String → String)
    (jsonParse : String → Except String JSValue) (now : Int)
    (o : VerifyAndParseOptions) (fs : List (String × JSValue))
    (hsig : v.verifySignature hmac now o.signature (normalizeTimestamp o.timestamp)
      o.body = true)
    (hparse : jsonParse o.body = .ok (.obj fs)) :
    (truthy (jsObjField fs "event") = false →
      v.verifyAndParse hmac jsonParse now o
        = .error (.err "Missing \x27event\x27 field in payload"))
    ∧ (truthy (jsObjField fs "event") = true →
       truthy (jsObjField fs "timestamp") = false →
       v.verifyAndParse hmac jsonParse now o
         = .error (.err "Missing \x27timestamp\x27 field in payload"))
    ∧ (truthy (jsObjField fs "event") = true →
       truthy (jsObjField fs "timestamp") = true →
       truthy (jsObjField fs "data") = false →
       v.verifyAndParse hmac jsonParse now o
         = .error (.err "Missing \x27data\x27 field in payload"))
    ∧ ((JSError.err "Missing \x27event\x27 field in payload"
          ≠ .err "Missing \x27timestamp\x27 field in payload")
       ∧ (JSError.err "Missing \x27event\x27 field in payload"
          ≠ .err "Missing \x27data\x27 field in payload")
       ∧ (JSError.err "Missing \x27timestamp\x27 field in payload"
          ≠ .err "Missing \x27data\x27 field in payload")
       ∧ isMissingFieldKind (.err "Missing \x27event\x27 field in payload") = true
       ∧ isMissingFieldKind (.err "Missing \x27timestamp\x27 field in payload") = true
       ∧ isMissingFieldKind (.err "Missing \x27data\x27 field in payload") = true) := by
  refine ⟨?_, ?_, ?_, by decide, by decide, by decide, by decide, by decide, by decide⟩
  · intro h1
    unfold WebhookVerifier.verifyAndParse
    simp [hsig, hparse, jsProp, h1]
  · intro h1 h2
    unfold WebhookVerifier.verifyAndParse
    simp [hsig, hparse, jsProp, h1, h2]
  · intro h1 h2 h3
    unfold WebhookVerifier.verifyAndParse
    simp [hsig, hparse, jsProp, h1, h2, h3]

/-- Witness for claim C6: a validly signed body whose object lacks the
`event` field. -/
theorem verifyAndParse_missing_field_errors_witness :
    WebhookVerifier.verifyAndParse ⟨"k", 300⟩ hmacW jsonParseW 0
      ⟨"0123456789abcdef0123456789abcdef0123456789abcdef0123456789abcdef",
        .num (JSNum.int 0), "NOEVENT", none⟩
      = .error (.err "Missing \x27event\x27 field in payload") :=
  (verifyAndParse_missing_field_errors ⟨"k", 300⟩ hmacW jsonParseW 0
      ⟨"0123456789abcdef0123456789abcdef0123456789abcdef0123456789abcdef",
        .num (JSNum.int 0), "NOEVENT", none⟩
      [("timestamp", .str "2023-11-14T22:13:20Z"), ("data", .obj [])]
      (by decide) (by rfl)).1 (by rfl)

/-- Claim C9: a validly signed, in-window delivery whose body is the text
"null" parses to JSON `null`; field validation then accesses a property
of `null` and throws a `TypeError`, which is none of the specified error
kinds (not Authentication, not Parse, not Missing-Field). -/
theorem verifyAndParse_null_body_typeError
    (v : WebhookVerifier) (hmac : String → String → String)
    (jsonParse : String → Except String JSValue) (now : Int)
    (o : VerifyAndParseOptions)
    (hsig : v.verifySignature hmac now o.signature (normalizeTimestamp o.timestamp)
      o.body = true)
    (hbody : o.body = "null")
    (hparse : jsonParse "null" = .ok .null) :
    v.verifyAndParse hmac jsonParse now o
      = .error (.typeError "Cannot read properties of null (reading \x27event\x27)")
    ∧ isAuthenticationKind
        (.typeError "Cannot read properties of null (reading \x27event\x27)") = false
    ∧ isParseKind
        (.typeError "Cannot read properties of null (reading \x27event\x27)") = false
    ∧ isMissingFieldKind
        (.typeError "Cannot read properties of null (reading \x27event\x27)") = false := by
  refine ⟨?_, rfl, rfl, rfl⟩
  unfold WebhookVerifier.verifyAndParse
  rw [hbody] at hsig ⊢
  simp [hsig, hparse, jsProp]

/-- Witness for claim C9: the four-character body "null" with a verified
signature. -/
theorem verifyAndParse_null_body_typeError_witness :
    WebhookVerifier.verifyAndParse ⟨"k", 300⟩ hmacW jsonParseW 0
      ⟨"0123456789abcdef0123456789abcdef0123456789abcdef0123456789abcdef",
        .num (JSNum.int 0), "null", none⟩
      = .error (.typeError "Cannot read properties of null (reading \x27event\x27)") :=
  (verifyAndParse_null_body_typeError ⟨"k", 300⟩ hmacW jsonParseW 0
      ⟨"0123456789abcdef0123456789abcdef0123456789abcdef0123456789abcdef",
        .num (JSNum.int 0), "null", none⟩
      (by decide) rfl (by rfl)).1

/-- Claim C10: a timestamp string with no parsable decimal prefix is
normalized to `NaN`; the replay-window comparison on `NaN` evaluates to
`false`, so the delivery is never rejected by the replay check, and
`verifySignature` reduces to the signature comparison against the message
"NaN." followed by the body. -/
theorem verifySignature_nan_timestamp
    (v : WebhookVerifier) (hmac : String → String → String) (now : Int)
    (sig body s : String)
    (h : jsParseInt s = JSNum.nan) :
    normalizeTimestamp (.str s) = JSNum.nan
    ∧ jsGt (jsAbs (jsSubIntNum now JSNum.nan)) v.maxAgeSeconds = false
    ∧ v.verifySignature hmac now sig JSNum.nan body =
        (match nodeTimingSafeEqual (hmac v.secret ("NaN." ++ body)) (sigValueOf sig) with
         | .ok b => b
         | .error _ => false) := by
  refine ⟨by simp [normalizeTimestamp, h], rfl, ?_⟩
  unfold WebhookVerifier.verifySignature
  have hmsg : jsNumToString JSNum.nan ++ "." ++ body = "NaN." ++ body := by
    rw [show (jsNumToString JSNum.nan ++ "." : String) = "NaN." from by decide]
  rw [hmsg]
  rfl

/-- Witness for claim C10: the unparsable timestamp string "abc". -/
theorem verifySignature_nan_timestamp_witness :
    normalizeTimestamp (.str "abc") = JSNum.nan
    ∧ jsGt (jsAbs (jsSubIntNum 1700000000 JSNum.nan)) (300 : Int) = false
    ∧ WebhookVerifier.verifySignature ⟨"k", 300⟩ hmacW 1700000000 "abc" JSNum.nan "[1]" =
        (match nodeTimingSafeEqual (hmacW "k" ("NaN." ++ "[1]")) (sigValueOf "abc") with
         | .ok b => b
         | .error _ => false) :=
  verifySignature_nan_timestamp ⟨"k", 300⟩ hmacW 1700000000 "abc" "[1]" "abc" (by decide)

/-- Claim C7: `extractHeaders` is insensitive to header-name casing and
gives the same result for both carrier shapes; a missing
`x-webhook-signature` or `x-webhook-timestamp` fails with an error naming
that header, while missing `x-webhook-event` or `x-webhook-delivery-id`
default to the empty string without error. -/
theorem extractHeaders_case_insensitive_and_required (l l₂ : List (String × String)) :
    (keyCaseEquiv l l₂ →
      extractHeaders (.headersObj l) = extractHeaders (.headersObj l₂)
      ∧ extractHeaders (.record l) = extractHeaders (.record l₂)
      ∧ extractHeaders (.headersObj l) = extractHeaders (.record l))
    ∧ ∀ c : HeaderCarrier, c = .headersObj l ∨ c = .record l →
        ((∀ p ∈ l, jsToLower p.1 ≠ "x-webhook-signature") →
          extractHeaders c = .error (.err "Missing X-Webhook-Signature header"))
        ∧ (∀ s, recordGet l "x-webhook-signature" = some s → s ≠ "" →
            (∀ p ∈ l, jsToLower p.1 ≠ "x-webhook-timestamp") →
            extractHeaders c = .error (.err "Missing X-Webhook-Timestamp header"))
        ∧ (∀ s t, recordGet l "x-webhook-signature" = some s → s ≠ "" →
            recordGet l "x-webhook-timestamp" = some t → t ≠ "" →
            (∀ p ∈ l, jsToLower p.1 ≠ "x-webhook-event") →
            (∀ p ∈ l, jsToLower p.1 ≠ "x-webhook-delivery-id") →
            extractHeaders c = .ok ⟨s, t, "", ""⟩) := by
  constructor
  · intro hEquiv
    have hrec : ∀ k, recordGet l k = recordGet l₂ k :=
      fun k => recordGet_congr hEquiv k
    refine ⟨extractHeaders_congr ?_, extractHeaders_congr ?_, extractHeaders_congr ?_⟩
    · intro k
      simp [carrierGet, headersGet_eq_recordGet, hrec k]
    · intro k
      simp [carrierGet, hrec k]
    · intro k
      simp [carrierGet, headersGet_eq_recordGet]
  · intro c hc
    have hget : ∀ k, carrierGet c k = recordGet l k := carrierGet_reduce l c hc
    have hlow : ∀ key : String, key ∈ (["x-webhook-signature", "x-webhook-timestamp",
        "x-webhook-event", "x-webhook-delivery-id"] : List String) →
        jsToLower key = key := by decide
    refine ⟨?_, ?_, ?_⟩
    · intro habs
      have hnone : recordGet l "x-webhook-signature" = none :=
        recordGet_eq_none_of_absent l _ (fun p hp => by
          rw [hlow "x-webhook-signature" (by decide)]
          exact habs p hp)
      simp [extractHeaders, hget, hnone, truthyStr]
    · intro s hs hsne habs
      have hnone : recordGet l "x-webhook-timestamp" = none :=
        recordGet_eq_none_of_absent l _ (fun p hp => by
          rw [hlow "x-webhook-timestamp" (by decide)]
          exact habs p hp)
      simp [extractHeaders, hget, hs, hnone, truthyStr, hsne]
    · intro s t hs hsne ht htne habsE habsD
      have hnoneE : recordGet l "x-webhook-event" = none :=
        recordGet_eq_none_of_absent l _ (fun p hp => by
          rw [hlow "x-webhook-event" (by decide)]
          exact habsE p hp)
      have hnoneD : recordGet l "x-webhook-delivery-id" = none :=
        recordGet_eq_none_of_absent l _ (fun p hp => by
          rw [hlow "x-webhook-delivery-id" (by decide)]
          exact habsD p hp)
      simp [extractHeaders, hget, hs, ht, hnoneE, hnoneD, truthyStr, hsne, htne]

/-- Witness for claim C7: the same two mandatory headers in upper and
mixed casing give the same extraction, and optional headers default to
the empty string. -/
theorem extractHeaders_case_insensitive_and_required_witness :
    (extractHeaders (.record [("X-Webhook-Signature", "s1"), ("X-Webhook-Timestamp", "t1")])
      = extractHeaders (.record [("x-webhook-signature", "s1"), ("x-WEBHOOK-timestamp", "t1")]))
    ∧ (extractHeaders (.record [("X-Webhook-Signature", "s1"), ("X-Webhook-Timestamp", "t1")])
      = .ok ⟨"s1", "t1", "", ""⟩) :=
  ⟨((extractHeaders_case_insensitive_and_required
      [("X-Webhook-Signature", "s1"), ("X-Webhook-Timestamp", "t1")]
      [("x-webhook-signature", "s1"), ("x-WEBHOOK-timestamp", "t1")]).1
      (List.Forall₂.cons ⟨by decide, rfl⟩
        (List.Forall₂.cons ⟨by decide, rfl⟩ List.Forall₂.nil))).2.1,
   (((extractHeaders_case_insensitive_and_required
      [("X-Webhook-Signature", "s1"), ("X-Webhook-Timestamp", "t1")] []).2
      (.record [("X-Webhook-Signature", "s1"), ("X-Webhook-Timestamp", "t1")])
      (Or.inr rfl)).2.2 "s1" "t1" (by decide) (by decide) (by decide) (by decide)
      (by decide) (by decide))⟩

/-- Claim C8: the REST client's response handler maps HTTP status to error
kinds exactly: 401 Authentication, 403 Forbidden, 404 NotFound,
429 RateLimit with the parsed Retry-After header when present,
400 Validation, any other status ≥ 400 a generic API error carrying the
status code; status 204 and empty bodies yield an empty result, and any
other body is parsed as JSON. -/
theorem handleResponse_status_mapping
    (jsonParse : String → Except String JSValue) (r : HttpResponse) :
    (r.status = 401 →
      handleResponse jsonParse r
        = .error (.authenticationError "Authentication required"))
    ∧ (r.status = 403 →
      handleResponse jsonParse r
        = .error (.forbiddenError
            (errMsgFrom (clientParseJson jsonParse r) "Access denied")))
    ∧ (r.status = 404 →
      handleResponse jsonParse r
        = .error (.notFoundError
            (errMsgFrom (clientParseJson jsonParse r) "Resource not found")))
    ∧ (r.status = 429 →
      handleResponse jsonParse r
        = .error (.rateLimitError "Rate limit exceeded"
            (match r.retryAfterHeader with
             | some s => if s ≠ "" then some (jsParseInt s) else none
             | none => none)))
    ∧ (r.status = 400 →
      handleResponse jsonParse r
        = .error (.validationError
            (errMsgFrom (clientParseJson jsonParse r) "Invalid request")))
    ∧ (r.status ≥ 400 → r.status ≠ 400 → r.status ≠ 401 → r.status ≠ 403 →
       r.status ≠ 404 → r.status ≠ 429 →
      handleResponse jsonParse r
        = .error (.ezUnsubError
            (errMsgFrom (clientParseJson jsonParse r)
              ("Request failed with status " ++ toString r.status))
            (some r.status)))
    ∧ (r.status = 204 → handleResponse jsonParse r = .ok (.obj []))
    ∧ (r.status < 400 → r.status ≠ 204 → r.bodyText = "" →
      handleResponse jsonParse r = .ok (.obj []))
    ∧ (r.status < 400 → r.status ≠ 204 → r.bodyText ≠ "" →
      handleResponse jsonParse r
        = (match jsonParse r.bodyText with
           | .ok v => .ok v
           | .error m => .error (.jsException m))) := by
  refine ⟨?_, ?_, ?_, ?_, ?_, ?_, ?_, ?_, ?_⟩
  · intro h
    simp [handleResponse, h]
  · intro h
    simp [handleResponse, h]
  · intro h
    simp [handleResponse, h]
  · intro h
    simp [handleResponse, h]
  · intro h
    simp [handleResponse, h]
  · intro hge h400 h401 h403 h404 h429
    simp [handleResponse, h400, h401, h403, h404, h429, hge]
  · intro h
    simp [handleResponse, h]
  · intro hlt h204 hbody
    have h401 : r.status ≠ 401 := by omega
    have h403 : r.status ≠ 403 := by omega
    have h404 : r.status ≠ 404 := by omega
    have h429 : r.status ≠ 429 := by omega
    have h400 : r.status ≠ 400 := by omega
    have hge : ¬ (r.status ≥ 400) := by omega
    simp [handleResponse, h401, h403, h404, h429, h400, hge, h204, hbody]
  · intro hlt h204 hbody
    have h401 : r.status ≠ 401 := by omega
    have h403 : r.status ≠ 403 := by omega
    have h404 : r.status ≠ 404 := by omega
    have h429 : r.status ≠ 429 := by omega
    have h400 : r.status ≠ 400 := by omega
    have hge : ¬ (r.status ≥ 400) := by omega
    simp [handleResponse, h401, h403, h404, h429, h400, hge, h204, hbody]

/-- Witness for claim C8: a 401 response, a 429 response with a
Retry-After header, and a 204 response. -/
theorem handleResponse_status_mapping_witness :
    handleResponse jsonParseW ⟨401, none, ""⟩
      = .error (.authenticationError "Authentication required")
    ∧ handleResponse jsonParseW ⟨429, some "7", ""⟩
      = .error (.rateLimitError "Rate limit exceeded" (some (jsParseInt "7")))
    ∧ handleResponse jsonParseW ⟨204, none, ""⟩ = .ok (.obj []) :=
  ⟨(handleResponse_status_mapping jsonParseW ⟨401, none, ""⟩).1 rfl,
   (handleResponse_status_mapping jsonParseW ⟨429, some "7", ""⟩).2.2.2.1 rfl,
   (handleResponse_status_mapping jsonParseW ⟨204, none, ""⟩).2.2.2.2.2.2.1 rfl⟩
